import Mathlib

/-!
Verification of the 1D spectral-element mesh and source construction of
defines.py. The pure numeric grid code is embedded over the rationals;
the transcendental source time function over the reals. The external
modules gll.py and functions.py are not part of this snapshot, so the
quadrature point tables and the inverse projection are modelled from the
spec where indicated.
-/

/-- Configuration values read from the parameter file: the fields that
Parameter.__init__ copies out of the config parser and that the grid and
source construction consume. -/
structure Config where
  length : ℚ
  nSpec : ℕ
  N : ℕ
  NGLJ : ℕ
  gridType : String
  meanRho : ℚ
  meanMu : ℚ
  tSource : ℚ
  maxAmpl : ℚ
  sourceType : String
  decayRate : ℚ

/-- The Parameter object of defines.py after `__init__`: the copied
configuration fields, the time step `dt` (set to 0, to be updated later
by the solver), and the quadrature point tables looked up from the gll
module for degrees N and NGLJ. -/
structure Param where
  length : ℚ
  nSpec : ℕ
  N : ℕ
  NGLJ : ℕ
  gridType : String
  meanRho : ℚ
  meanMu : ℚ
  tSource : ℚ
  maxAmpl : ℚ
  sourceType : String
  decayRate : ℚ
  dt : ℚ
  ksiGLL : ℕ → ℚ
  ksiGLJ : ℕ → ℚ

/-- Derived field: number of GLL points per element, `self.nGLL = self.N + 1`. -/
def Param.nGLL (p : Param) : ℕ := p.N + 1

/-- Derived field: number of GLJ points in the first element,
`self.nGLJ = self.NGLJ + 1`. -/
def Param.nGLJ (p : Param) : ℕ := p.NGLJ + 1

/-- Derived field: number of global points,
`self.nGlob = (self.nSpec - 1) * self.N + self.NGLJ + 1`. -/
def Param.nGlob (p : Param) : ℕ := (p.nSpec - 1) * p.N + p.NGLJ + 1

/-- Errors raised while building a Parameter: a polynomial degree with
no tabulated quadrature. The error carries the offending degree, as the
message string `N = %d is invalid!` does in the code. -/
inductive ParamError where
  | invalidN (degree : ℕ)
  | invalidNGLJ (degree : ℕ)

/-- Parameter.__init__ after the config fields are read: look up the GLL
table at degree N and the GLJ table at degree NGLJ (a missing key raises
a ValueError naming the degree), set `dt = 0`, and assemble the object.
The tables are passed as arguments because gll.py is not in this
snapshot; a degree is supported exactly when its lookup returns a value. -/
def paramInit (c : Config) (gllPts gljPts : ℕ → Option (ℕ → ℚ)) :
    Except ParamError Param :=
  match gllPts c.N with
  | none => .error (.invalidN c.N)
  | some kGLL =>
    match gljPts c.NGLJ with
    | none => .error (.invalidNGLJ c.NGLJ)
    | some kGLJ =>
      .ok { length := c.length, nSpec := c.nSpec, N := c.N, NGLJ := c.NGLJ,
            gridType := c.gridType, meanRho := c.meanRho, meanMu := c.meanMu,
            tSource := c.tSource, maxAmpl := c.maxAmpl,
            sourceType := c.sourceType, decayRate := c.decayRate,
            dt := 0, ksiGLL := kGLL, ksiGLJ := kGLJ }

/-- Modelled from the spec: `functions.invProjection` (functions.py is
not in this snapshot). CoordinateProjector, spec section 4.3: the affine
map sending a reference coordinate in [-1,1] to the physical interval
between ticks[e] and ticks[e+1]. -/
def invProjection (ksi : ℚ) (e : ℕ) (ticks : ℕ → ℚ) : ℚ :=
  ticks e + (ksi + 1) / 2 * (ticks (e + 1) - ticks e)

/-- Modelled from the spec: `np.linspace(0, length, nSpec + 1)` (external
library call), the uniform subdivision of [0, length]: entry e is the
start 0 plus e times the step (length - 0) / nSpec. -/
def homogTicks (p : Param) : ℕ → ℚ :=
  fun e => 0 + (e : ℚ) * ((p.length - 0) / (p.nSpec : ℚ))

/-- First statement of the loop body in OneDgrid.__init__:
`if i < param.nGLJ: self.z[i] = invProjection(param.ksiGLJ[i], 0, self.ticks)`. -/
def gridStep1 (p : Param) (z : ℕ → ℚ) (i : ℕ) : ℕ → ℚ :=
  if i < p.nGLJ then
    Function.update z i (invProjection (p.ksiGLJ i) 0 (homogTicks p))
  else z

/-- Second statement of the loop body in OneDgrid.__init__: the
`if i >= param.nGLL and i < param.nGlob - 1` write of the GLL projection
at index i, whose else branch writes the last tick at index nGlob - 1. -/
def gridStep2 (p : Param) (z : ℕ → ℚ) (i : ℕ) : ℕ → ℚ :=
  if p.nGLL ≤ i ∧ i < p.nGlob - 1 then
    Function.update z i
      (invProjection (p.ksiGLL (i % p.N)) (i / p.N) (homogTicks p))
  else
    Function.update z (p.nGlob - 1) (homogTicks p p.nSpec)

/-- One full iteration of the z assembly loop at loop index i: the first
if statement, then the second if statement with its else branch. -/
def gridStep (p : Param) (z : ℕ → ℚ) (i : ℕ) : ℕ → ℚ :=
  gridStep2 p (gridStep1 p z i) i

/-- State of the z array after the loop iterations i = 1 .. m; the array
starts as np.zeros(nGlob), modelled as the everywhere-zero function. -/
def buildZAux (p : Param) : ℕ → (ℕ → ℚ)
  | 0 => fun _ => 0
  | m + 1 => gridStep p (buildZAux p m) (m + 1)

/-- The z array after the full loop `for i in np.arange(param.nGlob-1)+1`,
that is after iterations i = 1 .. nGlob - 1. -/
def buildZ (p : Param) : ℕ → ℚ := buildZAux p (p.nGlob - 1)

/-- Value that iteration i leaves at its own index i: the GLL projection
when the second if fires, otherwise the GLJ projection when the first if
fires, otherwise the entry keeps its initial 0. -/
def stepVal (p : Param) (i : ℕ) : ℚ :=
  if p.nGLL ≤ i ∧ i < p.nGlob - 1 then
    invProjection (p.ksiGLL (i % p.N)) (i / p.N) (homogTicks p)
  else if i < p.nGLJ then
    invProjection (p.ksiGLJ i) 0 (homogTicks p)
  else 0

/-- Error raised by OneDgrid.__init__ on the unimplemented or unknown
grid type branches (the bare `raise` after the diagnostic print). -/
inductive GridError where
  | unsupportedGridType

/-- The grid fields assembled by OneDgrid.__init__ that the mesh claims
concern: global coordinates z, per-element material fields rho and mu,
and the element boundary ticks. -/
structure OneDgrid where
  z : ℕ → ℚ
  rho : ℕ → ℕ → ℚ
  mu : ℕ → ℕ → ℚ
  ticks : ℕ → ℚ

/-- The grid built on the homogeneous branch of OneDgrid.__init__:
uniform ticks, constant material fields on the element-node range filled
by the double loop (entries outside it keep the np.zeros value), and the
z array assembled by the loop. -/
def homogGrid (p : Param) : OneDgrid :=
  { z := buildZ p
    rho := fun e i => if e < p.nSpec ∧ i < p.nGLL then p.meanRho else 0
    mu := fun e i => if e < p.nSpec ∧ i < p.nGLL then p.meanMu else 0
    ticks := homogTicks p }

/-- Dispatch on param.gridType in OneDgrid.__init__: homogeneous builds
the grid, gradient and miscellaneous print a diagnostic and raise, file
loads the grid data from external files (passed here as fileData since
file reading is an external collaborator), any other tag prints and
raises. The bare raise on each failing branch is the unsupported grid
type error. -/
def gridInit (p : Param) (fileData : OneDgrid) : Except GridError OneDgrid :=
  if p.gridType = "homogeneous" then .ok (homogGrid p)
  else if p.gridType = "gradient" then .error .unsupportedGridType
  else if p.gridType = "miscellaneous" then .error .unsupportedGridType
  else if p.gridType = "file" then .ok fileData
  else .error .unsupportedGridType

/-- Error raised by Source.__init__ on a source type other than ricker
(the bare `raise` after the diagnostic print). -/
inductive SourceError where
  | unsupportedSourceType

/-- The Source object of defines.py: type tag, amplitude, duration,
decay rate and the derived alpha. -/
structure Source where
  typeOfSource : String
  ampl : ℝ
  hdur : ℝ
  decayRate : ℝ
  alpha : ℝ

/-- Source.__init__: on the ricker branch set
`hdur = param.tSource * param.dt`, copy the decay rate, and set
`alpha = decayRate / hdur`; any other source type raises. -/
noncomputable def mkSource (p : Param) : Except SourceError Source :=
  if p.sourceType = "ricker" then
    .ok { typeOfSource := p.sourceType
          ampl := (p.maxAmpl : ℝ)
          hdur := (p.tSource : ℝ) * (p.dt : ℝ)
          decayRate := (p.decayRate : ℝ)
          alpha := (p.decayRate : ℝ) / ((p.tSource : ℝ) * (p.dt : ℝ)) }
  else .error .unsupportedSourceType

/-- Source.__getitem__ : shift the time by hdur, then return
`ampl * -2 * alpha**3 * t * exp(-alpha*alpha*t*t) / sqrt(pi)`. -/
noncomputable def Source.getItem (s : Source) (t : ℝ) : ℝ :=
  s.ampl * (-2) * s.alpha ^ 3 * (t - s.hdur) *
    Real.exp ((-s.alpha) * s.alpha * (t - s.hdur) * (t - s.hdur)) /
    Real.sqrt Real.pi

/-! ## Characterization of the z assembly loop -/

/-- Iteration i of the loop changes the array only at index i and at
index nGlob - 1. -/
lemma gridStep_apply_ne (p : Param) (z : ℕ → ℚ) (i j : ℕ)
    (hji : j ≠ i) (hjg : j ≠ p.nGlob - 1) :
    gridStep p z i j = z j := by
  unfold gridStep gridStep2 gridStep1
  split_ifs <;>
    simp only [Function.update_noteq hji, Function.update_noteq hjg]

/-- After iterations 1 .. m, the array holds stepVal at indices 1 .. m
and 0 at the untouched indices, away from the special index nGlob - 1. -/
lemma buildZAux_apply (p : Param) (m j : ℕ) (hj : j ≠ p.nGlob - 1) :
    buildZAux p m j = if 1 ≤ j ∧ j ≤ m then stepVal p j else 0 := by
  induction m with
  | zero => rw [if_neg (by omega)]; rfl
  | succ m ih =>
    by_cases hjm : j = m + 1
    · subst hjm
      rw [if_pos (by omega)]
      show gridStep p (buildZAux p m) (m + 1) (m + 1) = stepVal p (m + 1)
      unfold gridStep gridStep2 gridStep1 stepVal
      by_cases h2 : p.nGLL ≤ m + 1 ∧ m + 1 < p.nGlob - 1
      · simp only [if_pos h2, Function.update_same]
      · simp only [if_neg h2]
        rw [Function.update_noteq hj]
        by_cases h1 : m + 1 < p.nGLJ
        · simp only [if_pos h1, Function.update_same]
        · simp only [if_neg h1]
          have := ih
          rw [if_neg (by omega)] at this
          exact this
    · show gridStep p (buildZAux p m) (m + 1) j = _
      rw [gridStep_apply_ne p _ _ _ hjm hj, ih]
      by_cases hcase : 1 ≤ j ∧ j ≤ m
      · rw [if_pos hcase, if_pos (by omega)]
      · rw [if_neg hcase, if_neg (by omega)]

/-- The last iteration of the loop takes its else branch and writes the
last tick at index nGlob - 1, whatever the earlier iterations did. -/
lemma buildZ_last (p : Param) (h2 : 1 ≤ p.nGlob - 1) :
    buildZ p (p.nGlob - 1) = homogTicks p p.nSpec := by
  obtain ⟨m, hm⟩ : ∃ m, p.nGlob - 1 = m + 1 := ⟨p.nGlob - 2, by omega⟩
  rw [buildZ, hm]
  show gridStep p (buildZAux p m) (m + 1) (m + 1) = _
  unfold gridStep gridStep2 gridStep1
  rw [if_neg (by omega : ¬(p.nGLL ≤ m + 1 ∧ m + 1 < p.nGlob - 1))]
  rw [hm, Function.update_same]

/-! ## Order facts about the projector and the uniform ticks -/

/-- A point family that increases from each index to the next up to d is
monotone on indices up to d. -/
lemma pointFamily_mono (f : ℕ → ℚ) (d : ℕ)
    (hm : ∀ k, k < d → f k < f (k + 1)) :
    ∀ a b, a ≤ b → b ≤ d → f a ≤ f b := by
  intro a b
  induction b with
  | zero =>
    intro hab _
    have ha : a = 0 := by omega
    subst ha
    exact le_refl _
  | succ b ih =>
    intro hab hbd
    by_cases hab2 : a = b + 1
    · subst hab2; exact le_refl _
    · exact le_trans (ih (by omega) (by omega)) (le_of_lt (hm b (by omega)))

/-- A point family with endpoints -1 and 1 that increases step by step
stays within [-1, 1] on indices up to d. -/
lemma pointFamily_bounds (f : ℕ → ℚ) (d : ℕ) (h0 : f 0 = -1) (h1 : f d = 1)
    (hm : ∀ k, k < d → f k < f (k + 1)) (k : ℕ) (hk : k ≤ d) :
    -1 ≤ f k ∧ f k ≤ 1 := by
  constructor
  · rw [← h0]; exact pointFamily_mono f d hm 0 k (Nat.zero_le k) hk
  · rw [← h1]; exact pointFamily_mono f d hm k d hk (le_refl d)

/-- The uniform ticks are monotone in the index when length is
nonnegative. -/
lemma homogTicks_mono (p : Param) (hL : 0 ≤ p.length) (a b : ℕ)
    (hab : a ≤ b) : homogTicks p a ≤ homogTicks p b := by
  unfold homogTicks
  have hstep : (0 : ℚ) ≤ (p.length - 0) / (p.nSpec : ℚ) :=
    div_nonneg (by linarith) (by positivity)
  have hcast : (a : ℚ) ≤ (b : ℚ) := by exact_mod_cast hab
  nlinarith

/-- The first tick is 0. -/
lemma homogTicks_zero (p : Param) : homogTicks p 0 = 0 := by
  unfold homogTicks
  norm_num

/-- The projector maps a reference coordinate at least -1 to a value at
least the left tick of the element. -/
lemma invProjection_lower (t : ℕ → ℚ) (e : ℕ) (ksi : ℚ) (hks : -1 ≤ ksi)
    (ht : t e ≤ t (e + 1)) : t e ≤ invProjection ksi e t := by
  unfold invProjection
  nlinarith

/-- The projector maps a reference coordinate at most 1 to a value at
most the right tick of the element. -/
lemma invProjection_upper (t : ℕ → ℚ) (e : ℕ) (ksi : ℚ) (hks : ksi ≤ 1)
    (ht : t e ≤ t (e + 1)) : invProjection ksi e t ≤ t (e + 1) := by
  unfold invProjection
  nlinarith

/-- The projector is monotone in the reference coordinate on an element
whose ticks are in order. -/
lemma invProjection_mono (t : ℕ → ℚ) (e : ℕ) (k1 k2 : ℚ) (h : k1 ≤ k2)
    (ht : t e ≤ t (e + 1)) :
    invProjection k1 e t ≤ invProjection k2 e t := by
  unfold invProjection
  nlinarith

/-- The projector is exact at the left endpoint of the reference
element. -/
lemma invProjection_neg_one (t : ℕ → ℚ) (e : ℕ) :
    invProjection (-1) e t = t e := by
  unfold invProjection
  ring

/-- The projector is exact at the right endpoint of the reference
element. -/
lemma invProjection_one (t : ℕ → ℚ) (e : ℕ) :
    invProjection 1 e t = t (e + 1) := by
  unfold invProjection
  ring

/-! ## Claim theorems: grid coordinates -/

/-- C1 (amended): for a homogeneous configuration in which the two
polynomial degrees agree (NGLJ = N, as in the default configuration),
and for any quadrature point tables with the spec invariants (strictly
increasing reference points running from -1 to 1), the coordinate array
z built by OneDgrid construction satisfies z 0 = 0 and is non-decreasing
across all global DOFs. The original claim, which allowed any NGLJ >= 1,
is refuted by the counterexample with NGLJ < N. -/
theorem z_monotone_homogeneous (p : Param) (d : OneDgrid)
    (hg : p.gridType = "homogeneous")
    (hS : 1 ≤ p.nSpec) (hN : 1 ≤ p.N) (hEq : p.NGLJ = p.N) (hL : 0 < p.length)
    (hL0 : p.ksiGLL 0 = -1) (hL1 : p.ksiGLL p.N = 1)
    (hLm : ∀ k, k < p.N → p.ksiGLL k < p.ksiGLL (k + 1))
    (hJ0 : p.ksiGLJ 0 = -1) (hJ1 : p.ksiGLJ p.NGLJ = 1)
    (hJm : ∀ k, k < p.NGLJ → p.ksiGLJ k < p.ksiGLJ (k + 1)) :
    gridInit p d = .ok (homogGrid p) ∧ (homogGrid p).z 0 = 0 ∧
      ∀ k, k + 1 ≤ p.nGlob - 1 →
        (homogGrid p).z k ≤ (homogGrid p).z (k + 1) := by
  have hG : p.nGlob - 1 = p.nSpec * p.N := by
    obtain ⟨S1, hS1⟩ : ∃ S1, p.nSpec = S1 + 1 := ⟨p.nSpec - 1, by omega⟩
    unfold Param.nGlob
    rw [hEq, hS1]
    simp only [Nat.add_sub_cancel, Nat.add_mul]
    omega
  have hSN : 1 ≤ p.nSpec * p.N := by
    have := Nat.mul_le_mul hS hN
    omega
  rw [hEq] at hJ1 hJm
  have hT : ∀ a b : ℕ, a ≤ b → homogTicks p a ≤ homogTicks p b :=
    fun a b hab => homogTicks_mono p (le_of_lt hL) a b hab
  have hLb : ∀ k, k ≤ p.N → -1 ≤ p.ksiGLL k ∧ p.ksiGLL k ≤ 1 :=
    fun k hk => pointFamily_bounds p.ksiGLL p.N hL0 hL1 hLm k hk
  have hJb : ∀ k, k ≤ p.N → -1 ≤ p.ksiGLJ k ∧ p.ksiGLJ k ≤ 1 :=
    fun k hk => pointFamily_bounds p.ksiGLJ p.N hJ0 hJ1 hJm k hk
  have hz0 : buildZ p 0 = 0 := by
    rw [buildZ, buildZAux_apply p (p.nGlob - 1) 0 (by omega)]
    rw [if_neg (by omega)]
  have hzlast : buildZ p (p.nSpec * p.N) = homogTicks p p.nSpec := by
    have h := buildZ_last p (by omega)
    rw [hG] at h
    exact h
  have hzval : ∀ j, 1 ≤ j → j ≤ p.nSpec * p.N → j ≠ p.nSpec * p.N →
      buildZ p j = stepVal p j := by
    intro j hj1 hj2 hj3
    rw [buildZ, buildZAux_apply p (p.nGlob - 1) j (by omega)]
    rw [if_pos ⟨hj1, by omega⟩]
  have hstepGLJ : ∀ j, 1 ≤ j → j ≤ p.N → j ≠ p.nSpec * p.N →
      buildZ p j = invProjection (p.ksiGLJ j) 0 (homogTicks p) := by
    intro j hj1 hj2 hj3
    have hjglob : j ≤ p.nSpec * p.N :=
      le_trans hj2 (Nat.le_mul_of_pos_left p.N (by omega))
    rw [hzval j hj1 hjglob hj3]
    unfold stepVal
    rw [if_neg (by unfold Param.nGLL; omega)]
    rw [if_pos (by unfold Param.nGLJ; omega)]
  have hstepGLL : ∀ j, p.N + 1 ≤ j → j + 1 ≤ p.nSpec * p.N →
      buildZ p j =
        invProjection (p.ksiGLL (j % p.N)) (j / p.N) (homogTicks p) := by
    intro j hj1 hj2
    rw [hzval j (by omega) (by omega) (by omega)]
    unfold stepVal
    rw [if_pos ⟨by unfold Param.nGLL; omega, by omega⟩]
  refine ⟨by unfold gridInit; rw [if_pos hg], hz0, ?_⟩
  intro k hk
  rw [hG] at hk
  show buildZ p k ≤ buildZ p (k + 1)
  by_cases hlast : k + 1 = p.nSpec * p.N
  · rw [hlast, hzlast]
    by_cases hk0 : k = 0
    · subst hk0
      rw [hz0]
      have := hT 0 p.nSpec (Nat.zero_le _)
      rw [homogTicks_zero p] at this
      exact this
    · by_cases hgll : p.N + 1 ≤ k
      · rw [hstepGLL k hgll (by omega)]
        have hql : k / p.N < p.nSpec := by
          rw [Nat.div_lt_iff_lt_mul (by omega : 0 < p.N)]
          omega
        have hmod : k % p.N ≤ p.N := le_of_lt (Nat.mod_lt _ (by omega))
        calc invProjection (p.ksiGLL (k % p.N)) (k / p.N) (homogTicks p)
            ≤ homogTicks p (k / p.N + 1) :=
              invProjection_upper _ _ _ (hLb _ hmod).2 (hT _ _ (by omega))
          _ ≤ homogTicks p p.nSpec := hT _ _ (by omega)
      · rw [hstepGLJ k (by omega) (by omega) (by omega)]
        calc invProjection (p.ksiGLJ k) 0 (homogTicks p)
            ≤ homogTicks p 1 :=
              invProjection_upper _ _ _ (hJb k (by omega)).2 (hT 0 1 (by omega))
          _ ≤ homogTicks p p.nSpec := hT _ _ hS
  · have hk2 : k + 2 ≤ p.nSpec * p.N := by omega
    by_cases hk0 : k = 0
    · subst hk0
      rw [hz0, hstepGLJ 1 (le_refl 1) hN (by omega)]
      have hlow := invProjection_lower (homogTicks p) 0 (p.ksiGLJ 1)
        (hJb 1 hN).1 (hT 0 1 (by omega))
      rw [homogTicks_zero p] at hlow
      exact hlow
    · by_cases hgll : p.N + 1 ≤ k
      · rw [hstepGLL k hgll (by omega), hstepGLL (k + 1) (by omega) (by omega)]
        have hdm : p.N * (k / p.N) + k % p.N = k := Nat.div_add_mod k p.N
        have hrlt : k % p.N < p.N := Nat.mod_lt _ (by omega)
        by_cases hr : k % p.N + 1 < p.N
        · have hmod1 : (k + 1) % p.N = k % p.N + 1 := by
            conv_lhs => rw [← hdm, add_assoc, Nat.mul_add_mod]
            rw [Nat.mod_eq_of_lt hr]
          have hdiv1 : (k + 1) / p.N = k / p.N := by
            conv_lhs => rw [← hdm, add_assoc,
              Nat.mul_add_div (by omega : 0 < p.N)]
            rw [Nat.div_eq_of_lt hr]
            omega
          rw [hmod1, hdiv1]
          exact invProjection_mono _ _ _ _
            (le_of_lt (hLm (k % p.N) (by omega))) (hT _ _ (by omega))
        · have hk3 : k + 1 = p.N * (k / p.N + 1) := by
            rw [mul_add, mul_one]
            omega
          have hmod1 : (k + 1) % p.N = 0 := by
            rw [hk3]
            exact Nat.mul_mod_right _ _
          have hdiv1 : (k + 1) / p.N = k / p.N + 1 := by
            rw [hk3]
            exact Nat.mul_div_cancel_left _ (by omega)
          rw [hmod1, hdiv1, hL0, invProjection_neg_one]
          exact invProjection_upper _ _ _ (hLb _ (le_of_lt hrlt)).2
            (hT _ _ (by omega))
      · by_cases hkN : k = p.N
        · rw [hstepGLJ k (by omega) (by omega) (by omega),
            hstepGLL (k + 1) (by omega) (by omega)]
          have hksi : p.ksiGLJ k = 1 := by rw [hkN]; exact hJ1
          rw [hksi, invProjection_one]
          have hdiv1 : 1 ≤ (k + 1) / p.N := by
            rw [Nat.le_div_iff_mul_le (by omega : 0 < p.N)]
            omega
          have hmodle : (k + 1) % p.N ≤ p.N := le_of_lt (Nat.mod_lt _ (by omega))
          calc homogTicks p (0 + 1) ≤ homogTicks p ((k + 1) / p.N) :=
              hT _ _ (by omega)
            _ ≤ invProjection (p.ksiGLL ((k + 1) % p.N)) ((k + 1) / p.N)
                (homogTicks p) :=
              invProjection_lower _ _ _ (hLb _ hmodle).1 (hT _ _ (by omega))
        · rw [hstepGLJ k (by omega) (by omega) (by omega),
            hstepGLJ (k + 1) (by omega) (by omega) (by omega)]
          exact invProjection_mono _ _ _ _
            (le_of_lt (hJm k (by omega))) (hT 0 1 (by omega))

/-- C2: on the homogeneous branch the last global DOF coordinate equals
the last tick, which equals length exactly; this value is written by the
else branch of the loop (the closing special case at index nGlob - 1),
whatever the quadrature point tables are. -/
theorem z_last_eq_length (p : Param) (d : OneDgrid)
    (hg : p.gridType = "homogeneous")
    (hS : 1 ≤ p.nSpec) (hJ : 1 ≤ p.NGLJ) :
    gridInit p d = .ok (homogGrid p) ∧
      (homogGrid p).z (p.nGlob - 1) = (homogGrid p).ticks p.nSpec ∧
      (homogGrid p).ticks p.nSpec = p.length := by
  refine ⟨by unfold gridInit; rw [if_pos hg], ?_, ?_⟩
  · show buildZ p (p.nGlob - 1) = homogTicks p p.nSpec
    apply buildZ_last
    have : p.NGLJ ≤ (p.nSpec - 1) * p.N + p.NGLJ := Nat.le_add_left _ _
    unfold Param.nGlob
    omega
  · show homogTicks p p.nSpec = p.length
    unfold homogTicks
    have hne : (p.nSpec : ℚ) ≠ 0 := Nat.cast_ne_zero.mpr (by omega)
    field_simp

/-- C3: on the homogeneous branch the ticks are the uniform subdivision
of [0, length] into nSpec equal sub-intervals: entry e is
e * length / nSpec for every e up to nSpec. -/
theorem ticks_uniform (p : Param) (d : OneDgrid)
    (hg : p.gridType = "homogeneous") (hS : 1 ≤ p.nSpec)
    (e : ℕ) (he : e ≤ p.nSpec) :
    gridInit p d = .ok (homogGrid p) ∧
      (homogGrid p).ticks e = (e : ℚ) * p.length / (p.nSpec : ℚ) := by
  refine ⟨by unfold gridInit; rw [if_pos hg], ?_⟩
  show homogTicks p e = (e : ℚ) * p.length / (p.nSpec : ℚ)
  unfold homogTicks
  ring

/-- C10: on the homogeneous branch with NGLJ < N, the loop never writes
the z entries at indices NGLJ + 1 .. N: such an index satisfies neither
i < nGLJ nor nGLL <= i, and is never the closing index nGlob - 1, so the
entry keeps its np.zeros initial value 0. -/
theorem z_gap_zero (p : Param) (d : OneDgrid)
    (hg : p.gridType = "homogeneous") (hS : 1 ≤ p.nSpec) (hJ1 : 1 ≤ p.NGLJ)
    (hlt : p.NGLJ < p.N) (i : ℕ) (hi1 : p.NGLJ + 1 ≤ i) (hi2 : i ≤ p.N) :
    gridInit p d = .ok (homogGrid p) ∧ (homogGrid p).z i = 0 := by
  refine ⟨by unfold gridInit; rw [if_pos hg], ?_⟩
  show buildZ p i = 0
  have key : p.nGlob - 1 = (p.nSpec - 1) * p.N + p.NGLJ := by
    unfold Param.nGlob
    omega
  have hne : i ≠ p.nGlob - 1 := by
    rcases Nat.lt_or_ge p.nSpec 2 with h2 | h2
    · have hS1 : p.nSpec - 1 = 0 := by omega
      rw [hS1, Nat.zero_mul] at key
      omega
    · have hNle : p.N ≤ (p.nSpec - 1) * p.N :=
        Nat.le_mul_of_pos_left p.N (by omega)
      omega
  rw [buildZ, buildZAux_apply p (p.nGlob - 1) i hne]
  have hstep : stepVal p i = 0 := by
    unfold stepVal
    rw [if_neg (by unfold Param.nGLL; omega)]
    rw [if_neg (by unfold Param.nGLJ; omega)]
  by_cases hin : 1 ≤ i ∧ i ≤ p.nGlob - 1
  · rw [if_pos hin, hstep]
  · rw [if_neg hin]

/-- C4: a grid type tag other than homogeneous and file takes one of the
raising branches of OneDgrid.__init__, so construction fails with the
unsupported grid type error and no grid object is produced. -/
theorem unsupported_gridType_errors (p : Param) (d : OneDgrid)
    (h1 : p.gridType ≠ "homogeneous") (h2 : p.gridType ≠ "file") :
    gridInit p d = .error .unsupportedGridType := by
  unfold gridInit
  rw [if_neg h1]
  by_cases hb : p.gridType = "gradient"
  · rw [if_pos hb]
  · rw [if_neg hb]
    by_cases hc : p.gridType = "miscellaneous"
    · rw [if_pos hc]
    · rw [if_neg hc, if_neg h2]

/-! ## Concrete instances -/

/-- Equally spaced reference points: a concrete point family satisfying
the spec invariants for the modelled quadrature tables (strictly
increasing, running from -1 to 1). -/
def equisp (deg : ℕ) : ℕ → ℚ :=
  fun k => -1 + 2 * (k : ℚ) / (deg : ℚ)

/-- A default-style parameter set: 4 elements of degree 4 with NGLJ = 4,
homogeneous grid of length 3000, ricker source of amplitude 1e7 and
decay rate 2.628. -/
def cfgA : Param :=
  { length := 3000, nSpec := 4, N := 4, NGLJ := 4,
    gridType := "homogeneous", meanRho := 2500, meanMu := 30000000000,
    tSource := 100, maxAmpl := 10000000, sourceType := "ricker",
    decayRate := 2628 / 1000, dt := 0,
    ksiGLL := equisp 4, ksiGLJ := equisp 4 }

/-- A parameter set with NGLJ = 2 below N = 4 and two elements. -/
def cfgB : Param :=
  { cfgA with nSpec := 2, NGLJ := 2, ksiGLJ := equisp 2 }

/-- Placeholder for externally loaded file data. -/
def emptyGrid : OneDgrid :=
  { z := fun _ => 0, rho := fun _ _ => 0, mu := fun _ _ => 0,
    ticks := fun _ => 0 }

/-- C1 counterexample: the configuration cfgB satisfies every hypothesis
of the claim (homogeneous grid, nSpec, N, NGLJ at least 1, positive
length, point tables with the spec invariants), yet the constructed z is
not non-decreasing: z 2 = 1500 while the never-written entry z 3 is
still 0. -/
theorem c1_counterexample :
    1 ≤ cfgB.nSpec ∧ 1 ≤ cfgB.N ∧ 1 ≤ cfgB.NGLJ ∧ 0 < cfgB.length ∧
    cfgB.gridType = "homogeneous" ∧
    cfgB.ksiGLL 0 = -1 ∧ cfgB.ksiGLL cfgB.N = 1 ∧
    (∀ k, k < cfgB.N → cfgB.ksiGLL k < cfgB.ksiGLL (k + 1)) ∧
    cfgB.ksiGLJ 0 = -1 ∧ cfgB.ksiGLJ cfgB.NGLJ = 1 ∧
    (∀ k, k < cfgB.NGLJ → cfgB.ksiGLJ k < cfgB.ksiGLJ (k + 1)) ∧
    gridInit cfgB emptyGrid = .ok (homogGrid cfgB) ∧
    ¬ ((homogGrid cfgB).z 2 ≤ (homogGrid cfgB).z 3) := by
  have hz2 : (homogGrid cfgB).z 2 = 1500 := by
    show buildZ cfgB 2 = 1500
    rw [buildZ, buildZAux_apply cfgB (cfgB.nGlob - 1) 2 (by decide)]
    rw [if_pos (by decide)]
    unfold stepVal
    rw [if_neg (by decide), if_pos (by decide)]
    norm_num [cfgB, cfgA, invProjection, homogTicks, equisp]
  have hz3 : (homogGrid cfgB).z 3 = 0 := by
    show buildZ cfgB 3 = 0
    rw [buildZ, buildZAux_apply cfgB (cfgB.nGlob - 1) 3 (by decide)]
    rw [if_pos (by decide)]
    unfold stepVal
    rw [if_neg (by decide), if_neg (by decide)]
  refine ⟨by norm_num [cfgB, cfgA], by norm_num [cfgB, cfgA],
    by norm_num [cfgB, cfgA], by norm_num [cfgB, cfgA], rfl,
    by norm_num [cfgB, cfgA, equisp], by norm_num [cfgB, cfgA, equisp],
    ?_, by norm_num [cfgB, cfgA, equisp], by norm_num [cfgB, cfgA, equisp],
    ?_, by unfold gridInit
           rw [if_pos (show cfgB.gridType = "homogeneous" from rfl)], ?_⟩
  · intro k hk
    have hk4 : k < 4 := by simpa [cfgB, cfgA] using hk
    interval_cases k <;> norm_num [cfgB, cfgA, equisp]
  · intro k hk
    have hk2 : k < 2 := by simpa [cfgB, cfgA] using hk
    interval_cases k <;> norm_num [cfgB, cfgA, equisp]
  · rw [hz2, hz3]
    norm_num

/-- C1 witness: the amended theorem applied to the default-style
configuration cfgA with the equally spaced point tables, read off at the
pair of indices 2, 3. -/
theorem z_monotone_homogeneous_witness :
    (homogGrid cfgA).z 0 = 0 ∧ (homogGrid cfgA).z 2 ≤ (homogGrid cfgA).z 3 := by
  have h := z_monotone_homogeneous cfgA emptyGrid rfl
    (by norm_num [cfgA]) (by norm_num [cfgA]) (by norm_num [cfgA])
    (by norm_num [cfgA])
    (by norm_num [cfgA, equisp]) (by norm_num [cfgA, equisp])
    (by intro k hk
        have hk4 : k < 4 := by simpa [cfgA] using hk
        interval_cases k <;> norm_num [cfgA, equisp])
    (by norm_num [cfgA, equisp]) (by norm_num [cfgA, equisp])
    (by intro k hk
        have hk4 : k < 4 := by simpa [cfgA] using hk
        interval_cases k <;> norm_num [cfgA, equisp])
  exact ⟨h.2.1, h.2.2 2 (by norm_num [cfgA, Param.nGlob])⟩

/-- C2 witness: the last-coordinate theorem applied to cfgA. -/
theorem z_last_eq_length_witness :
    gridInit cfgA emptyGrid = .ok (homogGrid cfgA) ∧
      (homogGrid cfgA).z (cfgA.nGlob - 1) = (homogGrid cfgA).ticks cfgA.nSpec ∧
      (homogGrid cfgA).ticks cfgA.nSpec = cfgA.length :=
  z_last_eq_length cfgA emptyGrid rfl (by norm_num [cfgA]) (by norm_num [cfgA])

/-- C3 witness: the uniform-ticks theorem applied to cfgA at entry 2,
together with the spelled-out tick list 0, 750, 1500, 2250, 3000. -/
theorem ticks_uniform_witness :
    (gridInit cfgA emptyGrid = .ok (homogGrid cfgA) ∧
      (homogGrid cfgA).ticks 2 = (2 : ℚ) * cfgA.length / (cfgA.nSpec : ℚ)) ∧
    ((homogGrid cfgA).ticks 0 = 0 ∧ (homogGrid cfgA).ticks 1 = 750 ∧
      (homogGrid cfgA).ticks 2 = 1500 ∧ (homogGrid cfgA).ticks 3 = 2250 ∧
      (homogGrid cfgA).ticks 4 = 3000) := by
  constructor
  · exact ticks_uniform cfgA emptyGrid rfl (by norm_num [cfgA]) 2
      (by norm_num [cfgA])
  · norm_num [homogGrid, homogTicks, cfgA]

/-- C10 witness: in cfgB (NGLJ = 2 below N = 4) the entry z 3 is left at
its initial 0. -/
theorem z_gap_zero_witness :
    gridInit cfgB emptyGrid = .ok (homogGrid cfgB) ∧ (homogGrid cfgB).z 3 = 0 :=
  z_gap_zero cfgB emptyGrid rfl (by norm_num [cfgB, cfgA])
    (by norm_num [cfgB, cfgA]) (by norm_num [cfgB, cfgA]) 3
    (by norm_num [cfgB, cfgA]) (by norm_num [cfgB, cfgA])

/-- A parameter set requesting the unimplemented gradient grid. -/
def cfgG : Param :=
  { cfgA with gridType := "gradient" }

/-- C4 witness: the gradient tag makes OneDgrid construction fail with
the unsupported grid type error. -/
theorem unsupported_gridType_witness :
    gridInit cfgG emptyGrid = .error .unsupportedGridType :=
  unsupported_gridType_errors cfgG emptyGrid (by decide) (by decide)

/-! ## Claim theorems: source and parameter -/

/-- C5: for a ricker source whose alpha is decayRate / hdur with
positive hdur, evaluation at any time t returns
ampl * -2 alpha^3 (t - hdur) exp(-alpha^2 (t - hdur)^2) / sqrt(pi). -/
theorem ricker_eval_formula (s : Source) (hty : s.typeOfSource = "ricker")
    (halpha : s.alpha = s.decayRate / s.hdur) (hh : 0 < s.hdur) (t : ℝ) :
    s.getItem t = s.ampl * (-2 * s.alpha ^ 3 * (t - s.hdur) *
      Real.exp (-(s.alpha ^ 2 * (t - s.hdur) ^ 2))) / Real.sqrt Real.pi := by
  unfold Source.getItem
  have harg : (-s.alpha) * s.alpha * (t - s.hdur) * (t - s.hdur) =
      -(s.alpha ^ 2 * (t - s.hdur) ^ 2) := by ring
  rw [harg]
  ring

/-- C6: a ricker source with positive duration is an odd function of
t - hdur: evaluation at hdur + u is the negation of evaluation at
hdur - u, and evaluation at hdur itself is exactly 0. -/
theorem ricker_odd_about_hdur (s : Source) (hty : s.typeOfSource = "ricker")
    (hh : 0 < s.hdur) (u : ℝ) :
    s.getItem (s.hdur + u) = -s.getItem (s.hdur - u) ∧
      s.getItem s.hdur = 0 := by
  constructor
  · unfold Source.getItem
    have h1 : s.hdur + u - s.hdur = u := by ring
    have h2 : s.hdur - u - s.hdur = -u := by ring
    rw [h1, h2]
    have harg : (-s.alpha) * s.alpha * (-u) * (-u) =
        (-s.alpha) * s.alpha * u * u := by ring
    rw [harg]
    ring
  · unfold Source.getItem
    simp

/-- A concrete ricker source with amplitude 1e7, duration 1 and decay
rate 2.628, whose alpha is decayRate / hdur. -/
noncomputable def srcW : Source :=
  { typeOfSource := "ricker", ampl := 10000000, hdur := 1,
    decayRate := 2628 / 1000, alpha := 2628 / 1000 }

/-- C5 witness: the evaluation formula applied to srcW at time 2. -/
theorem ricker_eval_formula_witness :
    srcW.getItem 2 = srcW.ampl * (-2 * srcW.alpha ^ 3 * ((2 : ℝ) - srcW.hdur) *
      Real.exp (-(srcW.alpha ^ 2 * ((2 : ℝ) - srcW.hdur) ^ 2))) /
      Real.sqrt Real.pi :=
  ricker_eval_formula srcW rfl (by norm_num [srcW]) (by norm_num [srcW]) 2

/-- C6 witness: the odd symmetry applied to srcW at offset 1. -/
theorem ricker_odd_about_hdur_witness :
    srcW.getItem (srcW.hdur + 1) = -srcW.getItem (srcW.hdur - 1) ∧
      srcW.getItem srcW.hdur = 0 :=
  ricker_odd_about_hdur srcW rfl (by norm_num [srcW]) 1

/-- C8: a source type other than ricker takes the raising branch of
Source.__init__, so construction fails with the unsupported source type
error and no source object is produced. -/
theorem unsupported_sourceType_errors (p : Param)
    (h : p.sourceType ≠ "ricker") :
    mkSource p = .error .unsupportedSourceType := by
  unfold mkSource
  rw [if_neg h]

/-- A parameter set requesting an unimplemented source type. -/
def cfgS : Param :=
  { cfgA with sourceType := "gaussian" }

/-- C8 witness: the gaussian tag makes Source construction fail. -/
theorem unsupported_sourceType_witness :
    mkSource cfgS = .error .unsupportedSourceType :=
  unsupported_sourceType_errors cfgS (by decide)

/-- C9: Parameter construction leaves dt = 0, so a ricker Source built
directly from a fresh Parameter gets hdur = tSource * 0 = 0 and computes
alpha as decayRate divided by that zero hdur; Source.__init__ performs
the division with no guard and raises no error (in this embedding the
total division by the zero denominator appears explicitly). -/
theorem fresh_param_ricker_divzero (c : Config)
    (gllPts gljPts : ℕ → Option (ℕ → ℚ)) (p : Param)
    (hp : paramInit c gllPts gljPts = .ok p)
    (hs : p.sourceType = "ricker") :
    p.dt = 0 ∧ ∃ s, mkSource p = .ok s ∧ s.hdur = 0 ∧
      s.alpha = (p.decayRate : ℝ) / 0 := by
  unfold paramInit at hp
  cases hgll : gllPts c.N with
  | none => rw [hgll] at hp; simp at hp
  | some kGLL =>
    rw [hgll] at hp
    cases hglj : gljPts c.NGLJ with
    | none => rw [hglj] at hp; simp at hp
    | some kGLJ =>
      rw [hglj] at hp
      simp only [Except.ok.injEq] at hp
      subst hp
      exact ⟨rfl, ⟨⟨c.sourceType, (c.maxAmpl : ℝ),
          (c.tSource : ℝ) * ((0 : ℚ) : ℝ), (c.decayRate : ℝ),
          (c.decayRate : ℝ) / ((c.tSource : ℝ) * ((0 : ℚ) : ℝ))⟩,
        by unfold mkSource; rw [if_pos hs],
        by norm_num,
        by norm_num⟩⟩

/-- The quadrature table registry used on concrete checks: only degree 4
is tabulated. -/
def tblW : ℕ → Option (ℕ → ℚ) :=
  fun deg => if deg = 4 then some (equisp 4) else none

/-- The configuration matching cfgA before table lookup. -/
def cfgC : Config :=
  { length := 3000, nSpec := 4, N := 4, NGLJ := 4,
    gridType := "homogeneous", meanRho := 2500, meanMu := 30000000000,
    tSource := 100, maxAmpl := 10000000, sourceType := "ricker",
    decayRate := 2628 / 1000 }

/-- C9 witness: building the Parameter from cfgC and then the ricker
source exhibits dt = 0, hdur = 0 and the division by the zero hdur. -/
theorem fresh_param_ricker_divzero_witness :
    cfgA.dt = 0 ∧ ∃ s, mkSource cfgA = .ok s ∧ s.hdur = 0 ∧
      s.alpha = (cfgA.decayRate : ℝ) / 0 :=
  fresh_param_ricker_divzero cfgC tblW tblW cfgA rfl rfl

/-- C7: a polynomial degree with no quadrature table makes Parameter
construction fail with an InvalidParameter-style error carrying the
offending degree (first checking the GLL degree N, then the GLJ degree
NGLJ), and construction raises no error when both degrees have tables. -/
theorem degree_check (c : Config) (gllPts gljPts : ℕ → Option (ℕ → ℚ)) :
    (gllPts c.N = none →
      paramInit c gllPts gljPts = .error (.invalidN c.N)) ∧
    (∀ kL, gllPts c.N = some kL → gljPts c.NGLJ = none →
      paramInit c gllPts gljPts = .error (.invalidNGLJ c.NGLJ)) ∧
    (∀ kL kJ, gllPts c.N = some kL → gljPts c.NGLJ = some kJ →
      ∃ p, paramInit c gllPts gljPts = .ok p) := by
  refine ⟨?_, ?_, ?_⟩
  · intro h
    unfold paramInit
    rw [h]
  · intro kL hL hJ
    unfold paramInit
    rw [hL, hJ]
  · intro kL kJ hL hJ
    unfold paramInit
    rw [hL, hJ]
    exact ⟨_, rfl⟩

/-- C7 witness: degree 9 has no GLL table and fails naming 9; degree 7
as NGLJ has no GLJ table and fails naming 7; the tabulated pair (4, 4)
builds a Parameter. -/
theorem degree_check_witness :
    paramInit { cfgC with N := 9 } tblW tblW = .error (.invalidN 9) ∧
    paramInit { cfgC with NGLJ := 7 } tblW tblW = .error (.invalidNGLJ 7) ∧
    (∃ p, paramInit cfgC tblW tblW = .ok p) :=
  ⟨(degree_check { cfgC with N := 9 } tblW tblW).1 rfl,
    (degree_check { cfgC with NGLJ := 7 } tblW tblW).2.1 (equisp 4) rfl rfl,
    (degree_check cfgC tblW tblW).2.2 (equisp 4) (equisp 4) rfl rfl⟩
